import Mathlib

/-!
Shallow embedding of `src/lectures/13-generalized-moments/notebook.ipynb`.

Numeric series values are modelled over `ℚ` (over `ℝ` for the log-likelihood,
which needs `Real.log`/`Real.exp`).  NumPy's global random number generator is
modelled by an explicit state `RNGState` (the seed last set with
`np.random.seed` and a counter of draw calls made since), together with an
abstract source `g : StdSource` that yields, for a seed, a draw-call index and
an element index, the underlying standard-normal variate.  A call
`np.random.normal(size, scale)` returns `scale * (standard draw)` and advances
the counter.  Pandas dataframes are records of a column list, an index, and a
total entry function from column labels and row numbers to values; column
assignment `df[label] = v` is `DataFrame.set`.
-/

namespace Microeconometrics

/-- Abstract source of standard-normal variates: seed, draw-call index since
that seed, element index within the call. -/
abbrev StdSource := ℕ → ℕ → ℕ → ℚ

/-- State of NumPy's global random number generator: the seed last set and the
number of draw calls made since. -/
structure RNGState where
  seed : ℕ
  counter : ℕ
deriving DecidableEq

/-- `np.random.seed(s)`: reset the global generator, discarding the prior
state. -/
def npSeed (s : ℕ) (_ : RNGState) : RNGState := ⟨s, 0⟩

/-- `np.random.normal(size=size, scale=scale)` on the global generator: a
series of `size` draws of scale times a standard-normal variate, advancing the
draw counter. -/
def npNormal (g : StdSource) (_size : ℕ) (scale : ℚ) (st : RNGState) :
    (ℕ → ℚ) × RNGState :=
  (fun i => scale * g st.seed st.counter i, ⟨st.seed, st.counter + 1⟩)

/-- A pandas dataframe: column labels, index name, index values, row count and
a total entry function (labels off the column list are irrelevant). -/
structure DataFrame where
  columns : List String
  indexName : String
  index : List ℕ
  numRows : ℕ
  entry : String → ℕ → ℚ

/-- Column assignment `df[label] = v`. -/
def DataFrame.set (df : DataFrame) (label : String) (v : ℕ → ℚ) : DataFrame :=
  { df with
    columns := if label ∈ df.columns then df.columns else df.columns ++ [label]
    entry := fun c i => if c = label then v i else df.entry c i }

/-- `np.mean` of a series of length `n`. -/
def npMean (n : ℕ) (f : ℕ → ℚ) : ℚ := (∑ i ∈ Finset.range n, f i) / n

/-- `np.mean` of a scalar (0-dimensional) argument is the scalar itself. -/
def npMeanScalar (x : ℚ) : ℚ := x

/-- `np.square`. -/
def npSquare (x : ℚ) : ℚ := x * x

/-- `get_sample_1(num_agents, beta, seed=123)`: reseeds the global generator,
draws `X` with scale 10 and `eps` standard, sets `Y = 1 + beta * X + eps`, and
assembles the dataframe with columns `Y`, `X` over index `Identifier`. -/
def get_sample_1 (g : StdSource) (num_agents : ℕ) (beta : ℚ) (seed : ℕ := 123)
    (st : RNGState := ⟨123, 0⟩) : DataFrame × RNGState :=
  let st0 := npSeed seed st
  let rsX := npNormal g num_agents 10 st0
  let X := rsX.1
  let rsEps := npNormal g num_agents 1 rsX.2
  let eps := rsEps.1
  let Y := fun i => 1 + beta * X i + eps i
  let df : DataFrame :=
    { columns := ["Y", "X"]
      indexName := "Identifier"
      index := List.range num_agents
      numRows := num_agents
      entry := fun c i => if c = "Y" then Y i else if c = "X" then X i else 0 }
  (df, rsEps.2)

/-- Example-1 `get_moments(df, beta)`: mean of `X * (Y - (1 + beta * X))`. -/
def Example1.get_moments (df : DataFrame) (beta : ℚ) : ℚ :=
  let residuals := fun i => df.entry "Y" i - (1 + beta * df.entry "X" i)
  let moments := fun i => df.entry "X" i * residuals i
  npMean df.numRows moments

/-- Example-1 `criterion_function_gmm(beta, df)`: the square of the mean of the
(scalar) moment. -/
def Example1.criterion_function_gmm (beta : ℚ) (df : DataFrame) : ℚ :=
  let moments := Example1.get_moments df beta
  npSquare (npMeanScalar moments)

/-- `get_residuals(df, beta)`: the series `Y - (1 + beta * X)`. -/
def get_residuals (df : DataFrame) (beta : ℚ) : ℕ → ℚ := fun i =>
  df.entry "Y" i - (1 + beta * df.entry "X" i)

/-- `np.mean` of a real-valued series of length `n`. -/
noncomputable def npMeanR (n : ℕ) (f : ℕ → ℝ) : ℝ := (∑ i ∈ Finset.range n, f i) / n

/-- `scipy.stats.norm.pdf(x)`: the standard normal density. -/
noncomputable def normPdf (x : ℝ) : ℝ :=
  Real.exp (-(x ^ 2) / 2) / Real.sqrt (2 * Real.pi)

/-- `np.clip(x, lo, None)`: clip from below only. -/
noncomputable def npClipBelow (x lo : ℝ) : ℝ := max x lo

/-- `criterion_function_mle(beta, df)`: the negative mean of the
log normal densities of the residuals, clipped from below at `-10e6`. -/
noncomputable def criterion_function_mle (beta : ℚ) (df : DataFrame) : ℝ :=
  let residuals := get_residuals df beta
  let rslt := fun i => npClipBelow (Real.log (normPdf (residuals i))) (-(10 * 10 ^ 6))
  Neg.neg (npMeanR df.numRows rslt)

/-- Stated from the spec sentence for comparison with the code: the negative
mean of the unmodified log normal densities of the residuals, with no clipping
or other guard. -/
noncomputable def criterion_mle_unclipped (beta : ℚ) (df : DataFrame) : ℝ :=
  -(npMeanR df.numRows (fun i => Real.log (normPdf (get_residuals df beta i))))

/-- `get_sample_2(num_agents, beta, seed=123)`: reseeds the global generator,
builds an empty canvas with columns `Y, X, Z1, Z2` over index `Identifier`
(pandas fills it with missing values; `0` stands in, every column is assigned
below), draws the instruments `Z1`, `Z2` and the common component `C` with
scale 10, sets `X = C + (Z1 + Z2) + nu` with `nu` standard, `U = C + u` with
`u` standard, and `Y = 1 + beta * X + U`. -/
def get_sample_2 (g : StdSource) (num_agents : ℕ) (beta : ℚ) (seed : ℕ := 123)
    (st : RNGState := ⟨123, 0⟩) : DataFrame × RNGState :=
  let st0 := npSeed seed st
  let df0 : DataFrame :=
    { columns := ["Y", "X", "Z1", "Z2"]
      indexName := "Identifier"
      index := List.range num_agents
      numRows := num_agents
      entry := fun _ _ => 0 }
  let rsZ1 := npNormal g num_agents 10 st0
  let df1 := df0.set "Z1" rsZ1.1
  let rsZ2 := npNormal g num_agents 10 rsZ1.2
  let df2 := df1.set "Z2" rsZ2.1
  let rsC := npNormal g num_agents 10 rsZ2.2
  let C := rsC.1
  let rsNu := npNormal g num_agents 1 rsC.2
  let df3 := df2.set "X" (fun i => C i + (df2.entry "Z1" i + df2.entry "Z2" i) + rsNu.1 i)
  let rsU := npNormal g num_agents 1 rsNu.2
  let U := fun i => C i + rsU.1 i
  let df4 := df3.set "Y" (fun i => 1 + beta * df3.entry "X" i + U i)
  (df4, rsU.2)

/-- Example-2 `get_moments(df, beta)`: the list of means of `Z * residual` for
the instrument labels `Z1`, `Z2`, built by the loop over the label list. -/
def Example2.get_moments (df : DataFrame) (beta : ℚ) : List ℚ :=
  let residuals := fun i => df.entry "Y" i - (1 + beta * df.entry "X" i)
  (["Z1", "Z2"]).map (fun label => npMean df.numRows (fun i => df.entry label i * residuals i))

/-- A two-element Python list viewed as a vector, as `np.dot` does. -/
def vecOfList (xs : List ℚ) (i : Fin 2) : ℚ := xs.getD i.val 0

/-- `np.dot` of a vector and a 2×2 matrix. -/
def npDotVM (v : Fin 2 → ℚ) (M : Fin 2 → Fin 2 → ℚ) : Fin 2 → ℚ :=
  fun j => ∑ i, v i * M i j

/-- `np.dot` of two vectors. -/
def npDotVV (v w : Fin 2 → ℚ) : ℚ := ∑ i, v i * w i

/-- `np.identity(2)`, the default weighting matrix. -/
def npIdentity2 : Fin 2 → Fin 2 → ℚ := fun i j => if i = j then 1 else 0

/-- Example-2 `criterion_function_gmm(beta, df, weighing_matrix=np.identity(2))`:
the quadratic form `np.dot(np.dot(moments, weighing_matrix), moments)`. -/
def Example2.criterion_function_gmm (beta : ℚ) (df : DataFrame)
    (weighing_matrix : Fin 2 → Fin 2 → ℚ := npIdentity2) : ℚ :=
  let moments := Example2.get_moments df beta
  npDotVV (npDotVM (vecOfList moments) weighing_matrix) (vecOfList moments)

/-!
State-threaded translations.  Each pandas operation in the bodies below is a
read (`df[...]` subscripting, arithmetic on series, `np.mean`); the only
mutation primitive of the embedding, `DataFrame.set`, does not occur.  The
translations pair the result with the frame as it stands after the body runs.
-/

/-- Reading a column threads the frame unchanged. -/
def DataFrame.getCol (df : DataFrame) (label : String) : (ℕ → ℚ) × DataFrame :=
  (df.entry label, df)

/-- State-threaded Example-1 `get_moments`. -/
def Example1.get_moments_st (df : DataFrame) (beta : ℚ) : ℚ × DataFrame :=
  let (ySer, df) := df.getCol "Y"
  let (xSer, df) := df.getCol "X"
  let residuals := fun i => ySer i - (1 + beta * xSer i)
  let moments := fun i => xSer i * residuals i
  (npMean df.numRows moments, df)

/-- State-threaded Example-1 `criterion_function_gmm`. -/
def Example1.criterion_function_gmm_st (beta : ℚ) (df : DataFrame) : ℚ × DataFrame :=
  let (moments, df) := Example1.get_moments_st df beta
  (npSquare (npMeanScalar moments), df)

/-- State-threaded `get_residuals`. -/
def get_residuals_st (df : DataFrame) (beta : ℚ) : (ℕ → ℚ) × DataFrame :=
  let (ySer, df) := df.getCol "Y"
  let (xSer, df) := df.getCol "X"
  (fun i => ySer i - (1 + beta * xSer i), df)

/-- State-threaded `criterion_function_mle`. -/
noncomputable def criterion_function_mle_st (beta : ℚ) (df : DataFrame) : ℝ × DataFrame :=
  let (residuals, df) := get_residuals_st df beta
  let rslt := fun i => npClipBelow (Real.log (normPdf (residuals i))) (-(10 * 10 ^ 6))
  (-(npMeanR df.numRows rslt), df)

/-- State-threaded Example-2 `get_moments`. -/
def Example2.get_moments_st (df : DataFrame) (beta : ℚ) : List ℚ × DataFrame :=
  let (ySer, df) := df.getCol "Y"
  let (xSer, df) := df.getCol "X"
  let residuals := fun i => ySer i - (1 + beta * xSer i)
  let (z1Ser, df) := df.getCol "Z1"
  let (z2Ser, df) := df.getCol "Z2"
  ([npMean df.numRows (fun i => z1Ser i * residuals i),
    npMean df.numRows (fun i => z2Ser i * residuals i)], df)

/-- State-threaded Example-2 `criterion_function_gmm`. -/
def Example2.criterion_function_gmm_st (beta : ℚ) (df : DataFrame)
    (weighing_matrix : Fin 2 → Fin 2 → ℚ := npIdentity2) : ℚ × DataFrame :=
  let (moments, df) := Example2.get_moments_st df beta
  (npDotVV (npDotVM (vecOfList moments) weighing_matrix) (vecOfList moments), df)

/-!  Theorems about the embedded program. -/

/-- C2: Example-1 `get_moments(df, beta)` returns the scalar mean over all rows
of `X * (Y - (1 + beta * X))`, the empirical moment condition `E[X * residual]`
for the linear model with intercept 1 and slope `beta`. -/
theorem Example1.get_moments_is_mean_moment (df : DataFrame) (beta : ℚ) :
    Example1.get_moments df beta =
      (∑ i ∈ Finset.range df.numRows,
        df.entry "X" i * (df.entry "Y" i - (1 + beta * df.entry "X" i))) /
        (df.numRows : ℚ) := rfl

/-- C6: Example-1 `criterion_function_gmm(beta, df)` equals the quadratic form
`m * W * m` of the (scalar) moment vector for the weighting matrix `W = 1`
(the 1×1 identity); the code computes the square of the mean of
`get_moments(df, beta)`. -/
theorem Example1.criterion_gmm_squares_moment (beta : ℚ) (df : DataFrame) :
    Example1.criterion_function_gmm beta df =
      Example1.get_moments df beta * 1 * Example1.get_moments df beta := by
  simp [Example1.criterion_function_gmm, npSquare, npMeanScalar]

/-- C1: Example-2 `criterion_function_gmm(beta, df, W)` returns the quadratic
form `mᵀ W m`, where `m` is the two-element moment vector
`[mean(Z1 * r), mean(Z2 * r)]` computed by Example-2 `get_moments` with
residuals `r = Y - (1 + beta * X)`; the weighting matrix defaults to the 2×2
identity, for which the criterion is `m₀² + m₁²`. -/
theorem Example2.criterion_gmm_quadratic_in_moments (beta : ℚ) (df : DataFrame)
    (W : Fin 2 → Fin 2 → ℚ) :
    Example2.get_moments df beta =
      [npMean df.numRows
        (fun i => df.entry "Z1" i * (df.entry "Y" i - (1 + beta * df.entry "X" i))),
       npMean df.numRows
        (fun i => df.entry "Z2" i * (df.entry "Y" i - (1 + beta * df.entry "X" i)))] ∧
    Example2.criterion_function_gmm beta df W =
      vecOfList (Example2.get_moments df beta) 0 * W 0 0 *
        vecOfList (Example2.get_moments df beta) 0 +
      vecOfList (Example2.get_moments df beta) 0 * W 0 1 *
        vecOfList (Example2.get_moments df beta) 1 +
      vecOfList (Example2.get_moments df beta) 1 * W 1 0 *
        vecOfList (Example2.get_moments df beta) 0 +
      vecOfList (Example2.get_moments df beta) 1 * W 1 1 *
        vecOfList (Example2.get_moments df beta) 1 ∧
    Example2.criterion_function_gmm beta df =
      vecOfList (Example2.get_moments df beta) 0 *
        vecOfList (Example2.get_moments df beta) 0 +
      vecOfList (Example2.get_moments df beta) 1 *
        vecOfList (Example2.get_moments df beta) 1 := by
  refine ⟨rfl, ?_, ?_⟩
  · simp only [Example2.criterion_function_gmm, npDotVV, npDotVM, Fin.sum_univ_two]
    ring
  · simp only [Example2.criterion_function_gmm, npDotVV, npDotVM, npIdentity2,
      Fin.sum_univ_two]
    norm_num

/-- C4: `get_sample_1(num_agents, beta, seed)` returns a dataframe with exactly
the columns `Y` and `X`, an index named `Identifier` holding `0` through
`num_agents - 1`, and rows satisfying `Y = 1 + beta * X + eps`, where `X` is
drawn as normal with scale 10 (10 times the standard draw of call 0 after the
reseed) and `eps` as standard normal (the draw of call 1). -/
theorem get_sample_1_spec (g : StdSource) (num_agents : ℕ) (beta : ℚ)
    (seed : ℕ) (st : RNGState) :
    ((get_sample_1 g num_agents beta seed st).1.columns = ["Y", "X"] ∧
     (get_sample_1 g num_agents beta seed st).1.indexName = "Identifier" ∧
     (get_sample_1 g num_agents beta seed st).1.index = List.range num_agents) ∧
    ∀ i, i < num_agents →
      (get_sample_1 g num_agents beta seed st).1.entry "X" i = 10 * g seed 0 i ∧
      (get_sample_1 g num_agents beta seed st).1.entry "Y" i =
        1 + beta * (get_sample_1 g num_agents beta seed st).1.entry "X" i +
          g seed 1 i := by
  refine ⟨⟨rfl, rfl, rfl⟩, fun i _ => ⟨?_, ?_⟩⟩ <;>
    simp [get_sample_1, npSeed, npNormal]

/-- Witness for C4 at the concrete source `gTest`, two agents, slope 5,
seed 7, row 0. -/
def gTest : StdSource := fun s c i => (s : ℚ) + 2 * c + 3 * i

theorem get_sample_1_spec_witness :
    0 < 2 ∧
    ((get_sample_1 gTest 2 5 7 ⟨0, 0⟩).1.entry "X" 0 = 10 * gTest 7 0 0 ∧
     (get_sample_1 gTest 2 5 7 ⟨0, 0⟩).1.entry "Y" 0 =
       1 + 5 * (get_sample_1 gTest 2 5 7 ⟨0, 0⟩).1.entry "X" 0 + gTest 7 1 0) :=
  ⟨by norm_num, (get_sample_1_spec gTest 2 5 7 ⟨0, 0⟩).2 0 (by norm_num)⟩

/-- C5: `get_sample_2(num_agents, beta, seed)` returns a dataframe with
columns `Y, X, Z1, Z2` satisfying `X = C + Z1 + Z2 + nu` and
`Y = 1 + beta * X + U` with `U = C + u`, so the error `U` shares the common
component `C` with `X`; the instruments `Z1`, `Z2` come from draw calls 0 and 1
after the reseed while `C`, `nu`, `u` come from the distinct draw calls 2, 3
and 4, so in this model the instruments are drawn independently of `C`, `nu`
and `u`. -/
theorem get_sample_2_spec (g : StdSource) (num_agents : ℕ) (beta : ℚ)
    (seed : ℕ) (st : RNGState) :
    ((get_sample_2 g num_agents beta seed st).1.columns = ["Y", "X", "Z1", "Z2"] ∧
     (get_sample_2 g num_agents beta seed st).1.indexName = "Identifier" ∧
     (get_sample_2 g num_agents beta seed st).1.index = List.range num_agents) ∧
    ∀ i, i < num_agents →
      (get_sample_2 g num_agents beta seed st).1.entry "Z1" i = 10 * g seed 0 i ∧
      (get_sample_2 g num_agents beta seed st).1.entry "Z2" i = 10 * g seed 1 i ∧
      (get_sample_2 g num_agents beta seed st).1.entry "X" i =
        10 * g seed 2 i +
          (get_sample_2 g num_agents beta seed st).1.entry "Z1" i +
          (get_sample_2 g num_agents beta seed st).1.entry "Z2" i +
          g seed 3 i ∧
      (get_sample_2 g num_agents beta seed st).1.entry "Y" i =
        1 + beta * (get_sample_2 g num_agents beta seed st).1.entry "X" i +
          (10 * g seed 2 i + g seed 4 i) := by
  refine ⟨⟨rfl, rfl, rfl⟩, fun i _ => ⟨?_, ?_, ?_, ?_⟩⟩ <;>
  · simp [get_sample_2, npSeed, npNormal, DataFrame.set]
    try ring

theorem get_sample_2_spec_witness :
    0 < 2 ∧
    ((get_sample_2 gTest 2 5 7 ⟨0, 0⟩).1.entry "Z1" 0 = 10 * gTest 7 0 0 ∧
     (get_sample_2 gTest 2 5 7 ⟨0, 0⟩).1.entry "Z2" 0 = 10 * gTest 7 1 0 ∧
     (get_sample_2 gTest 2 5 7 ⟨0, 0⟩).1.entry "X" 0 =
       10 * gTest 7 2 0 +
         (get_sample_2 gTest 2 5 7 ⟨0, 0⟩).1.entry "Z1" 0 +
         (get_sample_2 gTest 2 5 7 ⟨0, 0⟩).1.entry "Z2" 0 +
         gTest 7 3 0 ∧
     (get_sample_2 gTest 2 5 7 ⟨0, 0⟩).1.entry "Y" 0 =
       1 + 5 * (get_sample_2 gTest 2 5 7 ⟨0, 0⟩).1.entry "X" 0 +
         (10 * gTest 7 2 0 + gTest 7 4 0)) :=
  ⟨by norm_num, (get_sample_2_spec gTest 2 5 7 ⟨0, 0⟩).2 0 (by norm_num)⟩

/-- C8: sample generation is deterministic in its arguments: `get_sample_1`
and `get_sample_2` reseed the global generator with the given seed before any
draw, so the dataframes they return do not depend on the incoming generator
state. -/
theorem get_sample_deterministic (g : StdSource) (num_agents : ℕ) (beta : ℚ)
    (seed : ℕ) (st st' : RNGState) :
    (get_sample_1 g num_agents beta seed st).1 =
      (get_sample_1 g num_agents beta seed st').1 ∧
    (get_sample_2 g num_agents beta seed st).1 =
      (get_sample_2 g num_agents beta seed st').1 :=
  ⟨rfl, rfl⟩

/-- C9: the moment and criterion computations leave their input dataframe
unchanged: the state-threaded translations of both `get_moments` definitions,
both `criterion_function_gmm` definitions and `criterion_function_mle` return
the frame as received, and their value components agree with the pure
definitions. -/
theorem computations_preserve_frame (df : DataFrame) (beta : ℚ)
    (W : Fin 2 → Fin 2 → ℚ) :
    ((Example1.get_moments_st df beta).2 = df ∧
     (Example1.get_moments_st df beta).1 = Example1.get_moments df beta) ∧
    ((Example2.get_moments_st df beta).2 = df ∧
     (Example2.get_moments_st df beta).1 = Example2.get_moments df beta) ∧
    ((Example1.criterion_function_gmm_st beta df).2 = df ∧
     (Example1.criterion_function_gmm_st beta df).1 =
       Example1.criterion_function_gmm beta df) ∧
    ((Example2.criterion_function_gmm_st beta df W).2 = df ∧
     (Example2.criterion_function_gmm_st beta df W).1 =
       Example2.criterion_function_gmm beta df W) ∧
    ((criterion_function_mle_st beta df).2 = df ∧
     (criterion_function_mle_st beta df).1 = criterion_function_mle beta df) :=
  ⟨⟨rfl, rfl⟩, ⟨rfl, rfl⟩, ⟨rfl, rfl⟩, ⟨rfl, rfl⟩, ⟨rfl, rfl⟩⟩

/-- The log of the standard normal density in closed form. -/
theorem log_normPdf (x : ℝ) :
    Real.log (normPdf x) =
      -(x ^ 2) / 2 - Real.log (Real.sqrt (2 * Real.pi)) := by
  unfold normPdf
  rw [Real.log_div (Real.exp_ne_zero _) (by positivity), Real.log_exp]

/-- The normalizing constant `log sqrt(2 pi)` is positive. -/
theorem log_sqrt_two_pi_pos : 0 < Real.log (Real.sqrt (2 * Real.pi)) := by
  apply Real.log_pos
  rw [show (1 : ℝ) = Real.sqrt 1 by rw [Real.sqrt_one]]
  exact Real.sqrt_lt_sqrt (by norm_num) (by nlinarith [Real.pi_gt_three])

/-- A one-row frame with `Y = 10000`, `X = 0`: at `beta = 0` its residual is
`9999`, whose log density lies below the clip threshold `-10e6`. -/
def dfBad : DataFrame :=
  { columns := ["Y", "X"]
    indexName := "Identifier"
    index := List.range 1
    numRows := 1
    entry := fun c _ => if c = "Y" then 10000 else 0 }

/-- C3 (counterexample): `criterion_function_mle` does NOT return the negative
mean of the unmodified log normal density of the residuals: on `dfBad` at
`beta = 0` the clip at `-10e6` is active and the two values differ. -/
theorem mle_clip_alters_value :
    criterion_function_mle 0 dfBad ≠ criterion_mle_unclipped 0 dfBad := by
  have hres : ((get_residuals dfBad 0 0 : ℚ) : ℝ) = 9999 := by
    norm_num [get_residuals, dfBad]
  have hL : Real.log (normPdf 9999) < -(10 * 10 ^ 6) := by
    rw [log_normPdf]
    nlinarith [log_sqrt_two_pi_pos]
  have h1 : criterion_function_mle 0 dfBad = 10 * 10 ^ 6 := by
    show Neg.neg (npMeanR dfBad.numRows _) = _
    rw [show dfBad.numRows = 1 from rfl]
    rw [npMeanR]
    rw [Finset.sum_range_one]
    rw [npClipBelow, hres, max_eq_right (le_of_lt hL)]
    norm_num
  have h2 : criterion_mle_unclipped 0 dfBad = -Real.log (normPdf 9999) := by
    rw [criterion_mle_unclipped]
    rw [show dfBad.numRows = 1 from rfl]
    rw [npMeanR]
    rw [Finset.sum_range_one]
    rw [hres]
    norm_num
  rw [h1, h2]
  intro h
  nlinarith [hL]

/-- C3 (amended): `criterion_function_mle(beta, df)` returns the negative mean
of the log normal densities of the residuals `Y - (1 + beta * X)` clipped from
below at `-10e6` by `np.clip`; per row the term is
`max (-(r²)/2 - log sqrt(2 pi)) (-10e6)`. -/
theorem mle_criterion_formula (beta : ℚ) (df : DataFrame) :
    criterion_function_mle beta df =
      -((∑ i ∈ Finset.range df.numRows,
          max (-(((get_residuals df beta i : ℚ) : ℝ) ^ 2) / 2 -
              Real.log (Real.sqrt (2 * Real.pi)))
            (-(10 * 10 ^ 6))) / (df.numRows : ℝ)) := by
  show Neg.neg (npMeanR df.numRows _) = _
  rw [npMeanR]
  simp only [npClipBelow, log_normPdf]

/-- C10: every per-observation term entering the MLE criterion is clipped from
below at `-10e6`, so for a nonempty frame `criterion_function_mle(beta, df)`
is at most `10e6`. -/
theorem mle_criterion_bounded (beta : ℚ) (df : DataFrame)
    (h : 1 ≤ df.numRows) :
    (∀ i, -(10 * 10 ^ 6 : ℝ) ≤
      npClipBelow (Real.log (normPdf ((get_residuals df beta i : ℚ) : ℝ)))
        (-(10 * 10 ^ 6))) ∧
    criterion_function_mle beta df ≤ 10 * 10 ^ 6 := by
  constructor
  · intro i
    exact le_max_right _ _
  · show Neg.neg (npMeanR df.numRows _) ≤ _
    rw [npMeanR]
    have hn : (0 : ℝ) < (df.numRows : ℝ) := by
      exact_mod_cast Nat.lt_of_lt_of_le Nat.zero_lt_one h
    have hsum : (df.numRows : ℝ) * (-(10 * 10 ^ 6)) ≤
        ∑ i ∈ Finset.range df.numRows,
          npClipBelow (Real.log (normPdf ((get_residuals df beta i : ℚ) : ℝ)))
            (-(10 * 10 ^ 6)) := by
      calc (df.numRows : ℝ) * (-(10 * 10 ^ 6))
          = ∑ _i ∈ Finset.range df.numRows, (-(10 * 10 ^ 6 : ℝ)) := by
            rw [Finset.sum_const, Finset.card_range, nsmul_eq_mul]
        _ ≤ _ := Finset.sum_le_sum fun i _ => le_max_right _ _
    have hdiv : -(10 * 10 ^ 6 : ℝ) ≤
        (∑ i ∈ Finset.range df.numRows,
          npClipBelow (Real.log (normPdf ((get_residuals df beta i : ℚ) : ℝ)))
            (-(10 * 10 ^ 6))) / (df.numRows : ℝ) := by
      rw [le_div_iff₀ hn]
      linarith [hsum]
    linarith [hdiv]

theorem mle_criterion_bounded_witness :
    1 ≤ dfBad.numRows ∧ criterion_function_mle 0 dfBad ≤ 10 * 10 ^ 6 :=
  ⟨by norm_num [dfBad], (mle_criterion_bounded 0 dfBad (by norm_num [dfBad])).2⟩

end Microeconometrics
